import Mathlib

/-!
Shallow embedding of the authentication and user-management core of the
Dev_Ops_Project Express application, together with proofs checking the
natural-language specification against it.

Sources embedded (JavaScript):
* `src/utils/cookies.js` — the `cookies` helper object (`set`, `clear`, `get`).
* `src/utils/jwt.js` — the `jwttoken` wrapper (`sign`, `verify`).
* `src/services/auth.service.js` — `hashPassword`, `comparePassword`,
  `findUserByEmail`, `findUserById`, `createUser`.
* `src/services/users.services.js` — `getAllUsers`, `getUserById`,
  `updateUser`, `deleteUser`.
* `src/validations/auth.validations.js` — `signUpSchema`, `signInSchema`.
* `src/validations/users.validation.js` — `userIdSchema`, `updateUserSchema`.
* `src/controllers/auth.controller.js` — `signup`, `signin`, `signout`,
  `getCurrentUser`.
* `src/controllers/users.controller.js` — `fetchAllUsers`, `fetchUserById`,
  `updateUser`, `deleteUser`.
* `src/middleware/auth.middleware.js` — `authenticate`, `authorize`.
* `src/middleware/security.middleware.js` — the Arcjet decision handling.
* `src/routes/auth.routes.js` and `src/routes/users.routes.js` — which
  middlewares each route applies.

External npm dependencies (bcrypt, jsonwebtoken, the zod email format
check, Arcjet) are not part of the repository; the definitions standing in
for them are marked `Modelled from the spec:` in their doc comments.
-/

/-! ## JSON response bodies

Every response body this application produces is a JSON object whose
values are scalars, one nested object, or an array of objects (the users
list).  That exact shape is captured here so that properties about which
keys a body carries are decidable. -/

/-- A scalar JSON value: a string or a number. -/
inductive JLeaf where
  | s (v : String)
  | n (v : Int)
deriving DecidableEq, Repr

/-- A flat JSON object (list of key/scalar pairs). -/
abbrev JObj := List (String × JLeaf)

/-- A JSON value as used in this application's response bodies. -/
inductive JVal where
  | leaf (v : JLeaf)
  | obj (o : JObj)
  | arr (os : List JObj)
deriving DecidableEq, Repr

/-- A top-level JSON response body. -/
abbrev JBody := List (String × JVal)

/-- The keys occurring inside a nested JSON value. -/
def JVal.nestedKeys : JVal → List String
  | .leaf _ => []
  | .obj o => o.map Prod.fst
  | .arr os => (os.map (fun o => o.map Prod.fst)).flatten

/-- All keys occurring anywhere in a response body (top level and nested). -/
def JBody.allKeys (b : JBody) : List String :=
  b.map Prod.fst ++ (b.map (fun p => p.2.nestedKeys)).flatten

/-- Whether a body mentions a key anywhere (any nesting depth). -/
def JBody.mentionsKey (b : JBody) (k : String) : Bool :=
  (JBody.allKeys b).contains k

/-! ## Credential hasher (bcrypt)

`bcrypt` is an external npm dependency, not code of this repository.  Its
functional contract is modelled from the spec (§4.1, §8): `hash` is a
salted one-way transform and `compare(p, h)` reports whether `p` is the
password that produced `h`.  The digest is modelled as an opaque injective
image of the password (one-wayness is outside the scope of the model; only
the compare/hash algebra is used). -/

/-- Modelled from the spec: a bcrypt hash value — the salt together with an
opaque digest determined by the password (`bcrypt` stores both in its
output string). -/
structure BHash where
  salt : Nat
  digest : String
deriving DecidableEq, Repr

/-- Modelled from the spec: `bcrypt.hash(password, SALT_ROUNDS)` — a salted
one-way transform of the password. -/
def bcryptHash (salt : Nat) (p : String) : BHash :=
  ⟨salt, p⟩

/-- Modelled from the spec: `bcrypt.compare(password, hash)` — true exactly
when the password is the one the hash was derived from. -/
def bcryptCompare (p : String) (h : BHash) : Bool :=
  p == h.digest

/-- `SALT_ROUNDS` from `auth.service.js`. -/
def SALT_ROUNDS : Nat := 10

/-- `hashPassword` from `auth.service.js`: delegates to bcrypt. -/
def hashPassword (salt : Nat) (p : String) : BHash :=
  bcryptHash salt p

/-- `comparePassword` from `auth.service.js`: delegates to bcrypt. -/
def comparePassword (p : String) (h : BHash) : Bool :=
  bcryptCompare p h

/-! ## Data model

The `users` table from `models/user.model.js`: id (serial primary key),
name, email (unique), password (the bcrypt hash — column name `password`),
role (default `user`), createdAt, updatedAt.  Timestamps are modelled as
naturals. -/

/-- A row of the `users` table. -/
structure User where
  id : Nat
  name : String
  email : String
  password : BHash
  role : String
  createdAt : Nat
  updatedAt : Nat
deriving DecidableEq, Repr

/-- The safe projection selected by `findUserById`, `getAllUsers`,
`getUserById`, `updateUser` and `deleteUser`: every column except
`password`. -/
structure PublicUser where
  id : Nat
  name : String
  email : String
  role : String
  createdAt : Nat
  updatedAt : Nat
deriving DecidableEq, Repr

/-- The column selection dropping the `password` column. -/
def toPublicUser (u : User) : PublicUser :=
  ⟨u.id, u.name, u.email, u.role, u.createdAt, u.updatedAt⟩

/-- The database contents: the rows of the `users` table. -/
abbrev Db := List User

/-- `findUserByEmail` from `auth.service.js`: `select().from(users).where
(eq(users.email, email)).limit(1)` — full row, case-sensitive equality. -/
def findUserByEmail (db : Db) (email : String) : Option User :=
  db.find? (fun u => u.email == email)

/-- `findUserById` from `auth.service.js`: selects the safe projection of
the row with the given id. -/
def findUserById (db : Db) (id : Nat) : Option PublicUser :=
  (db.find? (fun u => u.id == id)).map toPublicUser

/-! ## Token service (jsonwebtoken + the `jwttoken` wrapper) -/

/-- The claims payload signed into a session token (`jwttoken.sign` is
always called with id, email and role). -/
structure Claims where
  id : Nat
  email : String
  role : String
deriving DecidableEq, Repr

/-- A compact token: claims, issued-at, expiry, and the signature value. -/
structure Token where
  claims : Claims
  iat : Nat
  exp : Nat
  sig : Nat
deriving DecidableEq, Repr

/-- Modelled from the spec: the signature the external `jsonwebtoken`
library computes over the payload with the secret.  Only its use as an
equality check matters to the model. -/
def tokenSig (secret : Nat) (c : Claims) (iat exp : Nat) : Nat :=
  secret * 1000003 + c.id * 101 + c.email.length * 31 + c.role.length * 7 + iat * 3 + exp

/-- `JWT_EXPIRES_IN = '1d'` from `utils/jwt.js`, in seconds. -/
def JWT_EXPIRES_SECONDS : Nat := 86400

/-- Modelled from the spec: the failure kinds of the external
`jsonwebtoken` library — invalid signature versus expired token. -/
inductive JwtLibError where
  | invalidSignature
  | expired
deriving DecidableEq, Repr

/-- Modelled from the spec: `jwt.sign(payload, secret)` with a 1-day
expiry. -/
def jwtLibSign (secret now : Nat) (c : Claims) : Token :=
  ⟨c, now, now + JWT_EXPIRES_SECONDS, tokenSig secret c now (now + JWT_EXPIRES_SECONDS)⟩

/-- Modelled from the spec: `jwt.verify(token, secret)` — rejects a bad
signature, then rejects an expired token, else yields the claims. -/
def jwtLibVerify (secret now : Nat) (t : Token) : Except JwtLibError Claims :=
  if t.sig ≠ tokenSig secret t.claims t.iat t.exp then .error .invalidSignature
  else if t.exp ≤ now then .error .expired
  else .ok t.claims

/-- `jwttoken.sign` from `utils/jwt.js`: delegates to the library. -/
def jwttokenSign (secret now : Nat) (c : Claims) : Token :=
  jwtLibSign secret now c

/-- `jwttoken.verify` from `utils/jwt.js`: any library failure is caught
and re-thrown as the single error string used in the source. -/
def jwttokenVerify (secret now : Nat) (t : Token) : Except String Claims :=
  match jwtLibVerify secret now t with
  | .ok c => .ok c
  | .error _ => .error "Failed to authenticate token"

/-! ## Session transport (`utils/cookies.js`)

The `cookies` object literal in `utils/cookies.js` defines exactly the
members `set`, `clear` and `get`.  Both `set` and `clear` evaluate
`cookies.getOptions()`, but no `getOptions` member is defined anywhere, so
in JavaScript the property lookup yields `undefined` and the call raises
`TypeError: cookies.getOptions is not a function`.  The `Option` below
transcribes that absent member. -/

/-- The cookie attributes a set-cookie instruction would carry. -/
structure CookieOpts where
  httpOnly : Bool
  secure : Bool
  sameSite : String
deriving DecidableEq, Repr

/-- The cookie side effects accumulated on a response: set cookies
(name, token value) and cleared cookie names. -/
structure CookieJar where
  setCookies : List (String × Token) := []
  clearedCookies : List String := []
deriving DecidableEq, Repr

/-- The `getOptions` member of the `cookies` object: `utils/cookies.js`
defines only `set`, `clear` and `get`, so this lookup yields `undefined`
(`none`). -/
def cookiesGetOptionsMember : Option (Unit → CookieOpts) :=
  none

/-- `cookies.set(res, name, value)`: spreads `cookies.getOptions()` into
the options; since `getOptions` is `undefined`, the call raises a
`TypeError` before any cookie is attached. -/
def cookiesSet (jar : CookieJar) (name : String) (value : Token) : Except String CookieJar :=
  match cookiesGetOptionsMember with
  | none => .error "cookies.getOptions is not a function"
  | some _ => .ok { jar with setCookies := jar.setCookies ++ [(name, value)] }

/-- `cookies.clear(res, name)`: likewise evaluates `cookies.getOptions()`
first, so it raises the same `TypeError`. -/
def cookiesClear (jar : CookieJar) (name : String) : Except String CookieJar :=
  match cookiesGetOptionsMember with
  | none => .error "cookies.getOptions is not a function"
  | some _ => .ok { jar with clearedCookies := jar.clearedCookies ++ [name] }

/-- An inbound request as the middleware sees it: the `token` cookie if
present.  `cookies.get(req, name)` reads `req.cookies[name]`. -/
structure Request where
  tokenCookie : Option Token
deriving DecidableEq, Repr

/-- `cookies.get(req, 'token')`. -/
def cookiesGet (req : Request) : Option Token :=
  req.tokenCookie

/-- An HTTP response: status, JSON body, and cookie side effects. -/
structure HttpResponse where
  status : Nat
  body : JBody
  jar : CookieJar := {}
deriving DecidableEq, Repr

/-! ## Validation schemas (zod)

Zod evaluates a chain like `z.string().min(2).max(255).trim()` in order:
the `min`/`max` length checks run on the raw input and `.trim()` is a
transform applied afterwards.  The embeddings below keep that order.
JavaScript's `trim` and `toLowerCase` are embedded as structurally
recursive functions over the character list (Lean's own `String.trim` and
`String.toLower` compute the same strings but are defined by well-founded
recursion on byte positions and do not reduce inside `decide`). -/

/-- JavaScript `String.prototype.trim`: strips whitespace from both
ends. -/
def jsTrim (s : String) : String :=
  ⟨((s.data.dropWhile Char.isWhitespace).reverse.dropWhile Char.isWhitespace).reverse⟩

/-- JavaScript `String.prototype.toLowerCase` (ASCII case folding). -/
def jsToLower (s : String) : String :=
  ⟨s.data.map Char.toLower⟩

/-- The `name` component of `signUpSchema`:
`z.string().min(2).max(255).trim()` — length checks on the raw string,
then the trim transform. -/
def validateName (s : String) : Option String :=
  if s.length < 2 then none
  else if 255 < s.length then none
  else some (jsTrim s)

/-- Modelled from the spec: zod's email format check (`z.email(...)`, an
external library internal) — RFC-plausible email syntax, here: exactly one
at-sign, neither first nor last, and no spaces. -/
def isPlausibleEmail (s : String) : Bool :=
  (s.data.filter (fun c => c = '@')).length == 1
    && s.data.head? != some '@' && s.data.getLast? != some '@'
    && !(s.data.contains ' ')

/-- The `email` component of `signUpSchema` and `signInSchema`:
`z.email().max(255).toLowerCase().trim()` — format and length checks on
the raw string, then lowercased and trimmed. -/
def validateEmail (s : String) : Option String :=
  if !isPlausibleEmail s then none
  else if 255 < s.length then none
  else some (jsTrim (jsToLower s))

/-- The signup `password` component: `z.string().min(8).max(128)`. -/
def validatePasswordSignup (s : String) : Option String :=
  if s.length < 8 then none
  else if 128 < s.length then none
  else some s

/-- The signin `password` component: `z.string().min(1)`. -/
def validatePasswordSignin (s : String) : Option String :=
  if s.length < 1 then none else some s

/-- The `role` component: `z.enum(['user', 'admin']).default('user')`. -/
def validateRole (r : Option String) : Option String :=
  match r with
  | none => some "user"
  | some v => if v == "user" || v == "admin" then some v else none

/-- The raw body of a signup request. -/
structure SignupBody where
  name : String
  email : String
  password : String
  role : Option String
deriving DecidableEq, Repr

/-- The parsed output of `signUpSchema`. -/
structure ValidSignup where
  name : String
  email : String
  password : String
  role : String
deriving DecidableEq, Repr

/-- `signUpSchema.safeParse`: succeeds exactly when every field parses,
yielding the transformed values. -/
def signUpSchema (b : SignupBody) : Option ValidSignup :=
  match validateName b.name, validateEmail b.email,
        validatePasswordSignup b.password, validateRole b.role with
  | some n, some e, some p, some r => some ⟨n, e, p, r⟩
  | _, _, _, _ => none

/-- The raw body of a signin request. -/
structure SigninBody where
  email : String
  password : String
deriving DecidableEq, Repr

/-- The parsed output of `signInSchema`. -/
structure ValidSignin where
  email : String
  password : String
deriving DecidableEq, Repr

/-- `signInSchema.safeParse`. -/
def signInSchema (b : SigninBody) : Option ValidSignin :=
  match validateEmail b.email, validatePasswordSignin b.password with
  | some e, some p => some ⟨e, p⟩
  | _, _ => none

/-- Decimal digits to a natural number (JavaScript `parseInt(s, 10)` on a
digits-only string). -/
def digitsToNat (l : List Char) : Nat :=
  l.foldl (fun acc c => acc * 10 + (c.toNat - 48)) 0

/-- `userIdSchema` from `users.validation.js`: the `id` path parameter
must match `/^\d+$/`, is parsed to an integer, and must be positive. -/
def userIdSchema (s : String) : Option Nat :=
  if s.data ≠ [] ∧ s.data.all Char.isDigit then
    if 0 < digitsToNat s.data then some (digitsToNat s.data) else none
  else none

/-- The raw body of an update request (absent fields are `none`). -/
structure UpdateBody where
  name : Option String
  email : Option String
  role : Option String
deriving DecidableEq, Repr

/-- The parsed output of `updateUserSchema`. -/
structure ValidUpdate where
  name : Option String
  email : Option String
  role : Option String
deriving DecidableEq, Repr

/-- Validates an optional field with the given per-field parser (absent
fields pass unchanged). -/
def validateOpt (f : String → Option String) : Option String → Option (Option String)
  | none => some none
  | some s => (f s).map some

/-- `updateUserSchema` from `users.validation.js`: optional name, email
and role with the same per-field constraints as signup, refined so that
at least one field is provided. -/
def updateUserSchema (b : UpdateBody) : Option ValidUpdate :=
  match validateOpt validateName b.name, validateOpt validateEmail b.email,
        validateOpt (fun r => validateRole (some r)) b.role with
  | some n, some e, some r =>
    if n.isSome || e.isSome || r.isSome then some ⟨n, e, r⟩ else none
  | _, _, _ => none

/-! ## Authentication service (`auth.service.js`) -/

/-- `createUser` from `auth.service.js`: rejects a duplicate email (exact
string equality on the stored, lowercased emails), otherwise hashes the
password and inserts the row, returning the safe fields of the new user.
The fresh id and timestamps are supplied by the caller as parameters
standing for the storage-assigned serial and `defaultNow()`. -/
def createUser (db : Db) (nextId salt now : Nat) (v : ValidSignup) :
    Except String (Db × User) :=
  if db.any (fun u => u.email == v.email) then
    .error "User with this email already exists"
  else
    let newUser : User :=
      ⟨nextId, v.name, v.email, hashPassword salt v.password, v.role, now, now⟩
    .ok (db ++ [newUser], newUser)

/-! ## Users service (`users.services.js`) -/

/-- `getAllUsers`: selects the safe projection of every row. -/
def getAllUsers (db : Db) : List PublicUser :=
  db.map toPublicUser

/-- `getUserById` from `users.services.js`: safe projection of the row
with the given id. -/
def getUserById (db : Db) (id : Nat) : Option PublicUser :=
  (db.find? (fun u => u.id == id)).map toPublicUser

/-- Applies a validated partial update to a row, refreshing `updatedAt`. -/
def applyUpdate (upd : ValidUpdate) (now : Nat) (u : User) : User :=
  { u with
    name := upd.name.getD u.name
    email := upd.email.getD u.email
    role := upd.role.getD u.role
    updatedAt := now }

/-- `updateUser` from `users.services.js`: looks the target up first and
fails with a 404-carrying error when absent; otherwise updates the row and
returns its safe projection. -/
def updateUserService (db : Db) (now id : Nat) (upd : ValidUpdate) :
    Except Nat (Db × PublicUser) :=
  match db.find? (fun u => u.id == id) with
  | none => .error 404
  | some u =>
    .ok (db.map (fun x => if x.id == id then applyUpdate upd now x else x),
         toPublicUser (applyUpdate upd now u))

/-- `deleteUser` from `users.services.js`: looks the target up first and
fails with a 404-carrying error when absent; otherwise deletes the row and
returns its safe projection. -/
def deleteUserService (db : Db) (id : Nat) : Except Nat (Db × PublicUser) :=
  match db.find? (fun u => u.id == id) with
  | none => .error 404
  | some u => .ok (db.filter (fun x => !(x.id == id)), toPublicUser u)

/-! ## Response body builders -/

/-- The four-field user object in signup/signin/getCurrentUser bodies. -/
def authUserObj (id : Nat) (name email role : String) : JObj :=
  [("id", .n id), ("name", .s name), ("email", .s email), ("role", .s role)]

/-- The six-field user object the users service selects. -/
def publicUserObj (u : PublicUser) : JObj :=
  [("id", .n u.id), ("name", .s u.name), ("email", .s u.email),
   ("role", .s u.role), ("createdAt", .n u.createdAt), ("updatedAt", .n u.updatedAt)]

/-- A 400 validation-failure response (`error` plus joined `details`). -/
def validationFailed400 : HttpResponse :=
  ⟨400, [("error", .leaf (.s "Validation failed")),
         ("details", .leaf (.s "joined issue messages"))], {}⟩

/-- The response `next(error)` produces for an unexpected error: the
Express default error handler answers 500. -/
def internalError500 : HttpResponse :=
  ⟨500, [], {}⟩

/-! ## Authentication controller (`auth.controller.js`) -/

/-- `signup`: validate body, create the user (409 on duplicate email),
sign a token and set the cookie, then answer 201 with the safe fields.
The `cookies.set` call raises (missing `getOptions`), the catch block sees
a message different from the duplicate-email message, and `next(error)`
yields 500 — after the row was already inserted.  Returns the response
together with the resulting table contents. -/
def signup (db : Db) (nextId salt secret now : Nat) (b : SignupBody) :
    HttpResponse × Db :=
  match signUpSchema b with
  | none => (validationFailed400, db)
  | some v =>
    match createUser db nextId salt now v with
    | .error msg =>
      if msg == "User with this email already exists" then
        (⟨409, [("message", .leaf (.s "Email already exists"))], {}⟩, db)
      else (internalError500, db)
    | .ok (db2, user) =>
      let token := jwttokenSign secret now ⟨user.id, user.email, user.role⟩
      match cookiesSet {} "token" token with
      | .error _ => (internalError500, db2)
      | .ok jar =>
        (⟨201, [("message", .leaf (.s "User registered successfully")),
                ("user", .obj (authUserObj user.id user.name user.email user.role))],
          jar⟩, db2)

/-- `signin`: validate body, look the user up by email (401 when absent),
compare the password (401 on mismatch, same body), then sign a token and
set the cookie.  As in `signup`, the `cookies.set` call raises and the
catch turns it into a 500 via `next(error)`. -/
def signin (db : Db) (secret now : Nat) (b : SigninBody) : HttpResponse :=
  match signInSchema b with
  | none => validationFailed400
  | some c =>
    match findUserByEmail db c.email with
    | none => ⟨401, [("message", .leaf (.s "Invalid email or password"))], {}⟩
    | some u =>
      if comparePassword c.password u.password then
        let token := jwttokenSign secret now ⟨u.id, u.email, u.role⟩
        match cookiesSet {} "token" token with
        | .error _ => internalError500
        | .ok jar =>
          ⟨200, [("message", .leaf (.s "User signed in successfully")),
                 ("user", .obj (authUserObj u.id u.name u.email u.role))], jar⟩
      else ⟨401, [("message", .leaf (.s "Invalid email or password"))], {}⟩

/-- `signout`: clears the cookie then answers 200.  The `cookies.clear`
call raises (missing `getOptions`), so the catch hands the error to
`next(error)` and the response is 500 with no cleared cookie. -/
def signoutHandler : HttpResponse :=
  match cookiesClear {} "token" with
  | .error _ => internalError500
  | .ok jar => ⟨200, [("message", .leaf (.s "User signed out successfully"))], jar⟩

/-- `getCurrentUser`: answers 200 with the identity the `authenticate`
middleware attached (id, name, email, role only). -/
def getCurrentUser (u : PublicUser) : HttpResponse :=
  ⟨200, [("user", .obj (authUserObj u.id u.name u.email u.role))], {}⟩

/-! ## Users controller (`users.controller.js`) -/

/-- `fetchAllUsers`: answers 200 with message, the safe projection of
every user, and the count. -/
def fetchAllUsers (db : Db) : HttpResponse :=
  ⟨200, [("message", .leaf (.s "Users fetched successfully")),
         ("users", .arr ((getAllUsers db).map publicUserObj)),
         ("count", .leaf (.n (getAllUsers db).length))], {}⟩

/-- `fetchUserById`: 400 on a bad id, 404 when absent, else 200 with the
safe projection. -/
def fetchUserById (db : Db) (idParam : String) : HttpResponse :=
  match userIdSchema idParam with
  | none => validationFailed400
  | some id =>
    match getUserById db id with
    | none => ⟨404, [("message", .leaf (.s "User not found"))], {}⟩
    | some u =>
      ⟨200, [("message", .leaf (.s "User fetched successfully")),
             ("user", .obj (publicUserObj u))], {}⟩

/-- `updateUser` controller: validate the id and body, then the ownership
check (403 unless self or admin), then the role-change check (403 when a
non-admin supplies `role`), and only then the service call, whose
404-carrying error the catch block maps to a 404 response.  `cu` is the
identity `req.user` holds.  Returns the response with the resulting table
contents. -/
def updateUser (db : Db) (now : Nat) (cu : PublicUser) (idParam : String)
    (b : UpdateBody) : HttpResponse × Db :=
  match userIdSchema idParam with
  | none => (validationFailed400, db)
  | some id =>
    match updateUserSchema b with
    | none => (validationFailed400, db)
    | some updates =>
      if !(cu.id == id) && !(cu.role == "admin") then
        (⟨403, [("message", .leaf (.s "You can only update your own profile"))], {}⟩, db)
      else if updates.role.isSome && !(cu.role == "admin") then
        (⟨403, [("message", .leaf (.s "Only administrators can change user roles"))], {}⟩, db)
      else
        match updateUserService db now id updates with
        | .error _ => (⟨404, [("message", .leaf (.s "User not found"))], {}⟩, db)
        | .ok (db2, u) =>
          (⟨200, [("message", .leaf (.s "User updated successfully")),
                  ("user", .obj (publicUserObj u))], {}⟩, db2)

/-- `deleteUser` controller: validate the id, then the ownership check
(403 unless self or admin), then the service call with its 404 mapping. -/
def deleteUser (db : Db) (cu : PublicUser) (idParam : String) :
    HttpResponse × Db :=
  match userIdSchema idParam with
  | none => (validationFailed400, db)
  | some id =>
    if !(cu.id == id) && !(cu.role == "admin") then
      (⟨403, [("message", .leaf (.s "You do not have permission to delete this user"))], {}⟩, db)
    else
      match deleteUserService db id with
      | .error _ => (⟨404, [("message", .leaf (.s "User not found"))], {}⟩, db)
      | .ok (db2, u) =>
        (⟨200, [("message", .leaf (.s "User deleted successfully")),
                ("user", .obj (publicUserObj u))], {}⟩, db2)

/-! ## Middleware (`auth.middleware.js`, `security.middleware.js`) -/

/-- `authenticate`: reads the `token` cookie (401 when absent), verifies
it through `jwttoken.verify` (401 on any verification failure), loads the
user by the decoded id (401 when vanished), and otherwise attaches the
safe projection to the request. -/
def authenticate (db : Db) (secret now : Nat) (req : Request) :
    Except HttpResponse PublicUser :=
  match cookiesGet req with
  | none => .error ⟨401, [("message", .leaf (.s "Authentication required"))], {}⟩
  | some t =>
    match jwttokenVerify secret now t with
    | .error _ => .error ⟨401, [("message", .leaf (.s "Invalid or expired token"))], {}⟩
    | .ok decoded =>
      match findUserById db decoded.id with
      | none => .error ⟨401, [("message", .leaf (.s "User not found"))], {}⟩
      | some u => .ok u

/-- `authorize(...roles)`: 401 when no identity was attached, 403 when the
identity's role is not in the allowed set. -/
def authorize (roles : List String) (user : Option PublicUser) :
    Except HttpResponse PublicUser :=
  match user with
  | none => .error ⟨401, [("message", .leaf (.s "Authentication required"))], {}⟩
  | some u =>
    if roles.contains u.role then .ok u
    else .error ⟨403, [("message", .leaf (.s "Insufficient permissions"))], {}⟩

/-- Modelled from the spec: the decision the external Arcjet service
returns for a request (consumed only through allow / deny-with-reason). -/
inductive ArcjetDecision where
  | allow
  | denyBot
  | denyShield
  | denyRateLimit
deriving DecidableEq, Repr

/-- `securityMiddleware`: maps a denied Arcjet decision to 403 (bot or
shield) or 429 (rate limit, guest message since `req.user` is never set
before this middleware runs), and passes allowed requests through. -/
def securityMiddleware (d : ArcjetDecision) : Except HttpResponse Unit :=
  match d with
  | .denyBot =>
    .error ⟨403, [("error", .leaf (.s "Forbidden")),
                  ("message", .leaf (.s "Automated bot traffic is not allowed."))], {}⟩
  | .denyShield =>
    .error ⟨403, [("error", .leaf (.s "Forbidden")),
                  ("message", .leaf (.s "Request blocked by security policy."))], {}⟩
  | .denyRateLimit =>
    .error ⟨429, [("error", .leaf (.s "Too Many Requests")),
                  ("message", .leaf (.s "Guest rate limit exceeded. Please sign in for higher limits."))], {}⟩
  | .allow => .ok ()

/-! ## Routes

`auth.routes.js` (the current revision) registers
`POST /sign-out` as `authenticate, signout` and `GET /me` as
`authenticate, getCurrentUser`.  `users.routes.js` registers
`GET /`, `GET /:id`, `PUT /:id`, `DELETE /:id` with the bare controller
functions and NO authenticate middleware; the app mounts the router behind
`securityMiddleware` only. -/

/-- The full pipeline of `POST /api/auth/sign-out`: the `authenticate`
middleware, then the signout handler. -/
def signOutRoute (db : Db) (secret now : Nat) (req : Request) : HttpResponse :=
  match authenticate db secret now req with
  | .error resp => resp
  | .ok _ => signoutHandler

/-- The full pipeline of `GET /api/auth/me`. -/
def meRoute (db : Db) (secret now : Nat) (req : Request) : HttpResponse :=
  match authenticate db secret now req with
  | .error resp => resp
  | .ok u => getCurrentUser u

/-- The full pipeline of `GET /api/users`: app-level `securityMiddleware`,
then directly `fetchAllUsers` — `users.routes.js` applies no
authentication middleware.  The request's session cookie is never
consulted. -/
def getUsersRoute (db : Db) (d : ArcjetDecision) (_req : Request) : HttpResponse :=
  match securityMiddleware d with
  | .error resp => resp
  | .ok _ => fetchAllUsers db

/-! ## Concrete fixtures used by closed theorems and witnesses -/

/-- A concrete stored user (created through signup, email lowercased). -/
def aliceUser : User :=
  ⟨1, "Alice", "alice@example.com", hashPassword 10 "password1", "user", 0, 0⟩

/-- A one-row table holding `aliceUser`. -/
def demoDb : Db := [aliceUser]

/-- A request carrying no session cookie. -/
def noCookieReq : Request := ⟨none⟩

/-- A well-signed token for Alice issued at time 0 with secret 5. -/
def aliceToken : Token := jwttokenSign 5 0 ⟨1, "alice@example.com", "user"⟩

/-- `aliceToken` with its signature disturbed (a tampered token). -/
def tamperedToken : Token := { aliceToken with sig := aliceToken.sig + 1 }

/-- A time one second past `aliceToken`'s expiry. -/
def afterExpiry : Nat := JWT_EXPIRES_SECONDS + 1

/-- A non-admin identity distinct from the stored user, as attached by the
authenticate middleware. -/
def bobUser : PublicUser := ⟨2, "Bob", "bob@example.com", "user", 0, 0⟩

/-- A validly shaped signin body naming an email with no registered user. -/
def c5BadEmailBody : SigninBody := ⟨"zz@b.com", "x"⟩

/-- A validly shaped signin body naming the registered email with a wrong
password. -/
def c5WrongPwBody : SigninBody := ⟨"alice@example.com", "wrongpass"⟩

/-! ## Helper lemmas -/

/-- Every error branch of the authenticate middleware is a 401 with no
cookie side effects. -/
theorem authenticate_error_status {db : Db} {secret now : Nat} {req : Request}
    {resp : HttpResponse} (h : authenticate db secret now req = .error resp) :
    resp.status = 401 ∧ resp.jar = {} := by
  unfold authenticate at h
  split at h
  · cases h; exact ⟨rfl, rfl⟩
  · split at h
    · cases h; exact ⟨rfl, rfl⟩
    · split at h
      · cases h; exact ⟨rfl, rfl⟩
      · cases h

/-- A successful email validation yields the lowercased, trimmed input. -/
theorem validateEmail_some {s e : String} (h : validateEmail s = some e) :
    e = jsTrim (jsToLower s) := by
  unfold validateEmail at h
  split at h
  · cases h
  · split at h
    · cases h
    · cases h; rfl

/-- The email a successful signup validation carries is the lowercased,
trimmed request email. -/
theorem signUpSchema_email_eq {b : SignupBody} {v : ValidSignup}
    (h : signUpSchema b = some v) : v.email = jsTrim (jsToLower b.email) := by
  unfold signUpSchema at h
  split at h
  · next n e p r hn he hp hr =>
    cases h
    exact validateEmail_some he
  · cases h

/-- The keys of the six-field user object. -/
theorem publicUserObj_keys (u : PublicUser) :
    (publicUserObj u).map Prod.fst =
      ["id", "name", "email", "role", "createdAt", "updatedAt"] := rfl

/-- The keys of the four-field user object. -/
theorem authUserObj_keys (id : Nat) (a b c : String) :
    (authUserObj id a b c).map Prod.fst = ["id", "name", "email", "role"] := rfl

/-- The users array of the list endpoint carries no `password` key. -/
theorem password_not_in_usersArr (l : List PublicUser) :
    "password" ∉ ((l.map publicUserObj).map (fun o => o.map Prod.fst)).flatten := by
  intro hmem
  rw [List.mem_flatten] at hmem
  obtain ⟨ks, hks, hk⟩ := hmem
  rw [List.mem_map] at hks
  obtain ⟨o, ho, rfl⟩ := hks
  rw [List.mem_map] at ho
  obtain ⟨u, hu, rfl⟩ := ho
  rw [publicUserObj_keys] at hk
  simp at hk

/-- No response of the signup controller ever carries a `password` key. -/
theorem signup_no_password_key (db : Db) (nextId salt secret now : Nat)
    (sb : SignupBody) :
    "password" ∉ JBody.allKeys ((signup db nextId salt secret now sb).1).body := by
  unfold signup
  repeat' split
  all_goals
    simp [validationFailed400, internalError500, JBody.allKeys, JVal.nestedKeys,
      authUserObj, cookiesSet, cookiesGetOptionsMember]

/-- No response of the signin controller ever carries a `password` key. -/
theorem signin_no_password_key (db : Db) (secret now : Nat) (ib : SigninBody) :
    "password" ∉ JBody.allKeys (signin db secret now ib).body := by
  unfold signin
  repeat' split
  all_goals
    simp [validationFailed400, internalError500, JBody.allKeys, JVal.nestedKeys,
      authUserObj, cookiesSet, cookiesGetOptionsMember]

/-- The getCurrentUser response carries no `password` key. -/
theorem getCurrentUser_no_password_key (cu : PublicUser) :
    "password" ∉ JBody.allKeys (getCurrentUser cu).body := by
  simp [getCurrentUser, JBody.allKeys, JVal.nestedKeys, authUserObj]

/-- The list-users response carries no `password` key. -/
theorem fetchAllUsers_no_password_key (db : Db) :
    "password" ∉ JBody.allKeys (fetchAllUsers db).body := by
  intro hmem
  unfold fetchAllUsers at hmem
  simp only [JBody.allKeys, JVal.nestedKeys, List.map_cons, List.map_nil,
    List.mem_append, List.flatten] at hmem
  rcases hmem with h | h
  · simp at h
  · exact password_not_in_usersArr (getAllUsers db) (by simpa using h)

/-- No response of the get-user-by-id controller carries a `password`
key. -/
theorem fetchUserById_no_password_key (db : Db) (idParam : String) :
    "password" ∉ JBody.allKeys (fetchUserById db idParam).body := by
  unfold fetchUserById
  repeat' split
  all_goals
    simp [validationFailed400, JBody.allKeys, JVal.nestedKeys, publicUserObj]

/-- No response of the update-user controller carries a `password` key. -/
theorem updateUser_no_password_key (db : Db) (now : Nat) (cu : PublicUser)
    (idParam : String) (ub : UpdateBody) :
    "password" ∉ JBody.allKeys ((updateUser db now cu idParam ub).1).body := by
  unfold updateUser
  repeat' split
  all_goals
    simp [validationFailed400, JBody.allKeys, JVal.nestedKeys, publicUserObj]

/-- No response of the delete-user controller carries a `password` key. -/
theorem deleteUser_no_password_key (db : Db) (cu : PublicUser) (idParam : String) :
    "password" ∉ JBody.allKeys ((deleteUser db cu idParam).1).body := by
  unfold deleteUser
  repeat' split
  all_goals
    simp [validationFailed400, JBody.allKeys, JVal.nestedKeys, publicUserObj]

/-! ## Claims -/

/-- Claim C1 (code bug): the spec requires every request to the user CRUD
endpoints without a valid session to be rejected with 401 before any data
access, but `users.routes.js` registers the handlers without the
`authenticate` middleware: an unauthenticated `GET /api/users` (no cookie,
Arcjet allowing) reaches `fetchAllUsers` and answers 200 with the full
user list, not 401. -/
theorem C1_unauthenticated_user_list_not_rejected :
    getUsersRoute demoDb .allow noCookieReq = fetchAllUsers demoDb ∧
    (getUsersRoute demoDb .allow noCookieReq).status = 200 ∧
    (getUsersRoute demoDb .allow noCookieReq).status ≠ 401 ∧
    "users" ∈ JBody.allKeys (getUsersRoute demoDb .allow noCookieReq).body := by
  refine ⟨rfl, rfl, by decide, by decide⟩

/-- Claim C2 (code bug): the spec says `cookies.set(res, 'token', token)`
and `cookies.clear(res, 'token')` complete without raising and attach or
discard the cookie, but both evaluate the missing `cookies.getOptions`
member, so for every response state and every token value both calls raise
the `TypeError` and neither attaches nor clears anything. -/
theorem C2_cookies_set_and_clear_always_raise :
    ∀ (jar : CookieJar) (t : Token),
      cookiesSet jar "token" t = .error "cookies.getOptions is not a function" ∧
      cookiesClear jar "token" = .error "cookies.getOptions is not a function" :=
  fun _ _ => ⟨rfl, rfl⟩

/-- Claim C3 counterexample: a `POST /auth/sign-out` request with no
session cookie answers 401, not the 200 the claim requires for every
request. -/
theorem C3_counterexample_signout_not_always_200 :
    (signOutRoute demoDb 5 0 noCookieReq).status = 401 ∧
    (signOutRoute demoDb 5 0 noCookieReq).status ≠ 200 := by
  exact ⟨rfl, by decide⟩

/-- Claim C3 (amended): `POST /auth/sign-out` never answers 200 and never
issues a clear-cookie instruction: the route runs the `authenticate`
middleware first, so a request with an absent, invalid or expired cookie
(or a vanished user) answers 401 and the signout handler never runs; an
authenticated request reaches the handler, whose `cookies.clear` call
raises (missing `getOptions`), producing 500. -/
theorem C3_signout_requires_auth_and_never_200 :
    ∀ (db : Db) (secret now : Nat) (req : Request),
      ((signOutRoute db secret now req).status = 401 ∨
       (signOutRoute db secret now req).status = 500) ∧
      (signOutRoute db secret now req).status ≠ 200 ∧
      (signOutRoute db secret now req).jar.clearedCookies = [] := by
  intro db secret now req
  unfold signOutRoute
  split
  · next resp h =>
    have ⟨h1, h2⟩ := authenticate_error_status h
    exact ⟨Or.inl h1, by omega, by rw [h2]⟩
  · exact ⟨Or.inr rfl, by decide, rfl⟩

/-- Claim C4 (confirmed): every success (2xx) response body of signup,
signin, getCurrentUser, list users, get user by id, update user and
delete user is built exclusively from the safe user projection plus
message/count fields — no body ever carries the `password` key (the
column holding the hash), hence neither the password hash nor the
plaintext password. -/
theorem C4_success_bodies_exclude_password :
    ∀ (db : Db) (nextId salt secret now now2 : Nat) (sb : SignupBody)
      (ib : SigninBody) (cu : PublicUser) (idParam : String) (ub : UpdateBody),
      (200 ≤ ((signup db nextId salt secret now sb).1).status →
        "password" ∉ JBody.allKeys ((signup db nextId salt secret now sb).1).body) ∧
      (200 ≤ (signin db secret now ib).status →
        "password" ∉ JBody.allKeys (signin db secret now ib).body) ∧
      (200 ≤ (getCurrentUser cu).status →
        "password" ∉ JBody.allKeys (getCurrentUser cu).body) ∧
      (200 ≤ (fetchAllUsers db).status →
        "password" ∉ JBody.allKeys (fetchAllUsers db).body) ∧
      (200 ≤ (fetchUserById db idParam).status →
        "password" ∉ JBody.allKeys (fetchUserById db idParam).body) ∧
      (200 ≤ ((updateUser db now2 cu idParam ub).1).status →
        "password" ∉ JBody.allKeys ((updateUser db now2 cu idParam ub).1).body) ∧
      (200 ≤ ((deleteUser db cu idParam).1).status →
        "password" ∉ JBody.allKeys ((deleteUser db cu idParam).1).body) :=
  fun db nextId salt secret now now2 sb ib cu idParam ub =>
    ⟨fun _ => signup_no_password_key db nextId salt secret now sb,
     fun _ => signin_no_password_key db secret now ib,
     fun _ => getCurrentUser_no_password_key cu,
     fun _ => fetchAllUsers_no_password_key db,
     fun _ => fetchUserById_no_password_key db idParam,
     fun _ => updateUser_no_password_key db now2 cu idParam ub,
     fun _ => deleteUser_no_password_key db cu idParam⟩

/-- Witness for C4 at a concrete database and identity. -/
theorem C4_witness :
    "password" ∉ JBody.allKeys (fetchAllUsers demoDb).body ∧
    "password" ∉ JBody.allKeys (getCurrentUser bobUser).body := by
  have h := C4_success_bodies_exclude_password demoDb 2 10 5 0 7
    ⟨"John Doe", "j@b.com", "password1", none⟩ ⟨"a@b.com", "x"⟩ bobUser "1"
    ⟨some "Newname", none, none⟩
  exact ⟨h.2.2.2.1 (by decide), h.2.2.1 (by decide)⟩

/-- Claim C5 (confirmed): a validly shaped signin naming an unregistered
email and one naming a registered email with a wrong password produce
identical HTTP responses — both the same 401 with the same body, so the
response does not reveal whether the email is registered. -/
theorem C5_signin_no_user_vs_wrong_password_identical
    (db : Db) (secret now : Nat) (b1 b2 : SigninBody) (c1 c2 : ValidSignin)
    (u : User)
    (h1 : signInSchema b1 = some c1) (h2 : signInSchema b2 = some c2)
    (hnone : findUserByEmail db c1.email = none)
    (hsome : findUserByEmail db c2.email = some u)
    (hpw : comparePassword c2.password u.password = false) :
    signin db secret now b1 = signin db secret now b2 ∧
    (signin db secret now b1).status = 401 := by
  unfold signin
  simp only [h1, h2, hnone, hsome, hpw]
  exact ⟨rfl, trivial⟩

/-- Witness for C5 at a concrete database and request pair. -/
theorem C5_witness :
    signin demoDb 5 0 c5BadEmailBody = signin demoDb 5 0 c5WrongPwBody ∧
    (signin demoDb 5 0 c5BadEmailBody).status = 401 :=
  C5_signin_no_user_vs_wrong_password_identical demoDb 5 0
    c5BadEmailBody c5WrongPwBody ⟨"zz@b.com", "x"⟩ ⟨"alice@example.com", "wrongpass"⟩
    aliceUser (by decide) (by decide) (by decide) (by decide) (by decide)

/-- Claim C6 (confirmed): when a user is already stored with email `e`
(stored lowercased, as signup always stores it), any otherwise-valid
signup whose email equals `e` up to letter case answers 409 duplicate
email and leaves the table unchanged — no new user, no overwrite. -/
theorem C6_duplicate_email_signup_409
    (db : Db) (nextId salt secret now : Nat) (u : User) (b : SignupBody)
    (v : ValidSignup) (hu : u ∈ db) (hv : signUpSchema b = some v)
    (hcase : jsTrim (jsToLower b.email) = u.email) :
    signup db nextId salt secret now b =
      (⟨409, [("message", .leaf (.s "Email already exists"))], {}⟩, db) := by
  have hev : v.email = u.email := (signUpSchema_email_eq hv).trans hcase
  have hany : db.any (fun x => x.email == v.email) = true := by
    rw [List.any_eq_true]
    exact ⟨u, hu, by simp [hev]⟩
  unfold signup
  simp only [hv]
  unfold createUser
  simp only [hany]
  simp

/-- Witness for C6: signing up `Alice@Example.com` over the stored
`alice@example.com` answers 409 and leaves the table unchanged. -/
theorem C6_witness :
    signup demoDb 2 10 5 0 ⟨"John Doe", "Alice@Example.com", "password1", none⟩ =
      (⟨409, [("message", .leaf (.s "Email already exists"))], {}⟩, demoDb) :=
  C6_duplicate_email_signup_409 demoDb 2 10 5 0 aliceUser
    ⟨"John Doe", "Alice@Example.com", "password1", none⟩
    ⟨"John Doe", "alice@example.com", "password1", "user"⟩
    (by decide) (by decide) (by decide)

/-- Claim C7 counterexample: a tampered token (signature disturbed) and a
well-signed but expired token are rejected by `jwttoken.verify` with the
SAME single error — the underlying library distinguishes the two kinds,
but the wrapper collapses both into one `Failed to authenticate token`
error, so verification does not fail with two distinct error kinds as the
claim states. -/
theorem C7_counterexample_same_error_for_both_failures :
    jwtLibVerify 5 afterExpiry tamperedToken = .error .invalidSignature ∧
    jwtLibVerify 5 afterExpiry aliceToken = .error .expired ∧
    jwttokenVerify 5 afterExpiry tamperedToken = .error "Failed to authenticate token" ∧
    jwttokenVerify 5 afterExpiry aliceToken = .error "Failed to authenticate token" ∧
    jwttokenVerify 5 afterExpiry tamperedToken = jwttokenVerify 5 afterExpiry aliceToken := by
  exact ⟨by rfl, by rfl, by rfl, by rfl, by rfl⟩

/-- Claim C7 (amended): `jwttoken.verify` fails with the single error
`Failed to authenticate token` both when the signature is invalid and when
the token is well-signed but expired — the two failure kinds are not
distinguished — and returns the decoded claims on a valid unexpired
token. -/
theorem C7_verify_single_error_kind (secret now : Nat) (t : Token) :
    (t.sig ≠ tokenSig secret t.claims t.iat t.exp →
      jwttokenVerify secret now t = .error "Failed to authenticate token") ∧
    (t.sig = tokenSig secret t.claims t.iat t.exp → t.exp ≤ now →
      jwttokenVerify secret now t = .error "Failed to authenticate token") ∧
    (t.sig = tokenSig secret t.claims t.iat t.exp → now < t.exp →
      jwttokenVerify secret now t = .ok t.claims) := by
  unfold jwttokenVerify jwtLibVerify
  refine ⟨fun hsig => ?_, fun hsig hexp => ?_, fun hsig hexp => ?_⟩
  · simp [hsig]
  · simp [hsig, hexp]
  · simp [hsig, Nat.not_le.mpr hexp]

/-- Witness for C7 exercising all three branches at concrete tokens. -/
theorem C7_witness :
    jwttokenVerify 5 afterExpiry tamperedToken = .error "Failed to authenticate token" ∧
    jwttokenVerify 5 afterExpiry aliceToken = .error "Failed to authenticate token" ∧
    jwttokenVerify 5 100 aliceToken = .ok aliceToken.claims :=
  ⟨(C7_verify_single_error_kind 5 afterExpiry tamperedToken).1 (by decide),
   (C7_verify_single_error_kind 5 afterExpiry aliceToken).2.1 (by decide) (by decide),
   (C7_verify_single_error_kind 5 100 aliceToken).2.2 (by decide) (by decide)⟩

/-- Claim C8 (confirmed): for every password in the valid signup length
range, comparing it against its own hash succeeds, and comparing any
distinct password in that range against the hash fails. -/
theorem C8_compare_hash_roundtrip (p w : String) (salt : Nat)
    (_hp1 : 8 ≤ p.length) (_hp2 : p.length ≤ 128)
    (_hw1 : 8 ≤ w.length) (_hw2 : w.length ≤ 128) (hne : w ≠ p) :
    comparePassword p (hashPassword salt p) = true ∧
    comparePassword w (hashPassword salt p) = false := by
  unfold comparePassword hashPassword bcryptCompare bcryptHash
  exact ⟨by simp, by simp [hne]⟩

/-- Witness for C8 at two concrete passwords. -/
theorem C8_witness :
    comparePassword "password1" (hashPassword 10 "password1") = true ∧
    comparePassword "password2" (hashPassword 10 "password1") = false :=
  C8_compare_hash_roundtrip "password1" "password2" 10
    (by decide) (by decide) (by decide) (by decide) (by decide)

/-- Claim C9 counterexample: the name ` a` (space then one letter) has
trimmed length 1, below the claimed minimum of 2, yet full signup
validation accepts it (storing the trimmed `a`): zod runs the `min`/`max`
length checks on the raw string before the trim transform. -/
theorem C9_counterexample_short_trimmed_name_accepted :
    signUpSchema ⟨" a", "a@b.com", "password1", none⟩ =
      some ⟨"a", "a@b.com", "password1", "user"⟩ ∧
    (jsTrim " a").length = 1 := by
  exact ⟨by decide, by decide⟩

/-- Claim C9 (amended): signup name validation accepts exactly the strings
whose RAW (untrimmed) length lies in 2..255 — the length checks run before
trimming — and the stored value is the trimmed string, whose length may
fall below 2. -/
theorem C9_name_checked_before_trim (b : SignupBody) :
    (∀ v, signUpSchema b = some v →
      2 ≤ b.name.length ∧ b.name.length ≤ 255 ∧ v.name = jsTrim b.name) ∧
    (2 ≤ b.name.length → b.name.length ≤ 255 →
      (validateEmail b.email).isSome = true →
      (validatePasswordSignup b.password).isSome = true →
      (validateRole b.role).isSome = true →
      ∃ v, signUpSchema b = some v ∧ v.name = jsTrim b.name) := by
  constructor
  · intro v h
    unfold signUpSchema at h
    split at h
    · next n e p r hn he hp hr =>
      cases h
      unfold validateName at hn
      split at hn
      · cases hn
      · split at hn
        · cases hn
        · cases hn
          refine ⟨by omega, by omega, rfl⟩
    · cases h
  · intro hlen1 hlen2 he hp hr
    obtain ⟨e, he⟩ := Option.isSome_iff_exists.mp he
    obtain ⟨p, hp⟩ := Option.isSome_iff_exists.mp hp
    obtain ⟨r, hr⟩ := Option.isSome_iff_exists.mp hr
    have hn : validateName b.name = some (jsTrim b.name) := by
      unfold validateName
      rw [if_neg (by omega), if_neg (by omega)]
    refine ⟨⟨jsTrim b.name, e, p, r⟩, ?_, rfl⟩
    unfold signUpSchema
    rw [hn, he, hp, hr]

/-- Witness for C9 exercising both directions at concrete bodies. -/
theorem C9_witness :
    (2 ≤ ("Jo" : String).length ∧ ("Jo" : String).length ≤ 255 ∧
      ("Jo" : String) = jsTrim "Jo") ∧
    (∃ v, signUpSchema ⟨"Jo", "a@b.com", "password1", none⟩ = some v ∧
      v.name = jsTrim "Jo") :=
  ⟨(C9_name_checked_before_trim ⟨"Jo", "a@b.com", "password1", none⟩).1
      ⟨"Jo", "a@b.com", "password1", "user"⟩ (by decide),
   (C9_name_checked_before_trim ⟨"Jo", "a@b.com", "password1", none⟩).2
      (by decide) (by decide) (by decide) (by decide) (by decide)⟩

/-- Claim C10 (confirmed): in updateUser and deleteUser the
ownership/role check runs before target existence is consulted: a
non-admin identity addressing a valid foreign id receives a fixed 403
response, identical for every database (so whether the id exists is not
revealed), and the table is unchanged; 404 can only arise after the
ownership check passes. -/
theorem C10_ownership_check_before_existence
    (db db2 : Db) (now now2 : Nat) (cu : PublicUser) (idParam : String)
    (b : UpdateBody) (tid : Nat)
    (hid : userIdSchema idParam = some tid)
    (hb : (updateUserSchema b).isSome = true)
    (hrole : cu.role ≠ "admin") (hne : cu.id ≠ tid) :
    (updateUser db now cu idParam b).1 =
      ⟨403, [("message", .leaf (.s "You can only update your own profile"))], {}⟩ ∧
    (updateUser db now cu idParam b).2 = db ∧
    (updateUser db now cu idParam b).1 = (updateUser db2 now2 cu idParam b).1 ∧
    (deleteUser db cu idParam).1 =
      ⟨403, [("message", .leaf (.s "You do not have permission to delete this user"))], {}⟩ ∧
    (deleteUser db cu idParam).2 = db ∧
    (deleteUser db cu idParam).1 = (deleteUser db2 cu idParam).1 := by
  obtain ⟨upd, hupd⟩ := Option.isSome_iff_exists.mp hb
  have hidf : (cu.id == tid) = false := by simp [hne]
  have hrf : (cu.role == "admin") = false := by simp [hrole]
  unfold updateUser deleteUser
  simp only [hid, hupd, hidf, hrf]
  norm_num

/-- Witness for C10: Bob (non-admin, id 2) addressing user id 1 receives
the fixed 403 responses. -/
theorem C10_witness :
    (updateUser demoDb 7 bobUser "1" ⟨some "Newname", none, none⟩).1 =
      ⟨403, [("message", .leaf (.s "You can only update your own profile"))], {}⟩ ∧
    (deleteUser demoDb bobUser "1").1 =
      ⟨403, [("message", .leaf (.s "You do not have permission to delete this user"))], {}⟩ := by
  have h := C10_ownership_check_before_existence demoDb [] 7 8 bobUser "1"
    ⟨some "Newname", none, none⟩ 1 (by decide) (by decide) (by decide) (by decide)
  exact ⟨h.1, h.2.2.2.1⟩
